import Mathlib

/-!
Shallow embedding of `src/App.js` of the public-api-dashboard-demo
repository: the data model, the pure view-model helpers, the initial-load
orchestration (`fetchDashlaneInfo`), and the selection-driven device fetch
(`Body`'s `fetchUserDevice` effect), modelled as explicit state passing.
-/

namespace Dashboard

/-- Seat counts carried by the team status response
(`team.seats.{active,remaining,pending}` in `App.js`). -/
structure Seats where
  active : Int
  remaining : Int
  pending : Int
deriving Repr, DecidableEq

/-- The team payload consumed by the dashboard (`team.data.data`). -/
structure Team where
  seats : Seats
deriving Repr, DecidableEq

/-- One point of the password-health series.  In the source these are plain
JSON objects; the chart reads `name` (may be absent: JS `undefined`) and
`score`, and `HealthScoreDetails` reads the breakdown counts. -/
structure HealthScorePoint where
  name : Option String
  score : Int
  passwordsTotal : Int
  safe : Int
  weak : Int
  reused : Int
  compromised : Int
deriving Repr, DecidableEq

/-- The payload of the `/PasswordHealth` response:
`healthscore.data.data.{history,current}`. -/
structure PasswordHealthPayload where
  history : List HealthScorePoint
  current : HealthScorePoint
deriving Repr, DecidableEq

/-- The capability flags on a member's `role` object, read by
`getUserRole`. -/
structure Role where
  teamAdmin : Bool
  groupManager : Bool
  billingAdmin : Bool
deriving Repr, DecidableEq

/-- A member's nested `passwordHealth` object.  Fields are `Option Nat`
because the JSON fields may be absent (`undefined`), which the rendering
treats like `0` (both are JS-falsy). -/
structure PasswordHealth where
  score : Option Nat
  weakPasswords : Option Nat
  compromisedPasswords : Option Nat
deriving Repr, DecidableEq

/-- The `authentication` object of a member (`authentication.type`). -/
structure Authentication where
  type : String
deriving Repr, DecidableEq

/-- A member row of the `/Members` response. -/
structure Member where
  email : String
  status : String
  authentication : Authentication
  role : Role
  passwordHealth : PasswordHealth
deriving Repr, DecidableEq

/-- The payload of the `/Members` response (`users.data.data`), whose
`members` field is iterated by `UsersInfo`. -/
structure MembersPayload where
  members : List Member
deriving Repr, DecidableEq

/-- A device row of the `/MembersDeviceInformation` response. -/
structure Device where
  name : String
  platform : String
  appVersion : Option String
  model : Option String
  osVersion : Option String
deriving Repr, DecidableEq

/-- The payload of the `/MembersDeviceInformation` response
(`response.data.data.devices`). -/
structure DevicesPayload where
  devices : List Device
deriving Repr, DecidableEq

/-- An axios response: `response.data` is the HTTP body. -/
structure AxiosResponse (α : Type) where
  data : α
deriving Repr, DecidableEq

/-- The API's body envelope `\x7b data: payload \x7d`: `body.data` is the
payload (unwrapped as `.data.data` in the source). -/
structure ApiBody (α : Type) where
  data : α
deriving Repr, DecidableEq

/-- A failed request (network failure / non-2xx / malformed body): the
`error` value caught by the `catch` blocks in `App.js`. -/
structure RequestError where
  message : String
deriving Repr, DecidableEq

/-- JS string interpolation of a possibly-`undefined` value: interpolating
`undefined` into a template literal yields the string `undefined`. -/
def jsInterp : Option String → String
  | none => "undefined"
  | some s => s

/-- `API_BASE_URL` constant from `App.js`. -/
def API_BASE_URL : String := "/dashlane-api/public/teams"

/-- The axios instance created by `axios.create` in `App.js`: a base URL
and the fixed `Authorization` header built from the environment token. -/
structure ApiClient where
  baseURL : String
  authHeader : String
deriving Repr, DecidableEq

/-- `api = axios.create({ baseURL, headers: { Authorization: Bearer ... } })`
with `AUTH_TOKEN = process.env.REACT_APP_DASHLANE_API_KEY` (possibly
absent). -/
def mkApi (token : Option String) : ApiClient :=
  { baseURL := API_BASE_URL
    authHeader := "Bearer " ++ jsInterp token }

/-- A request as actually issued on the wire by the axios client: URL and
the `Authorization` header it carries.  `App.js` performs no check of the
token before issuing; every `api.post` sends this. -/
structure IssuedRequest where
  url : String
  authHeader : String
deriving Repr, DecidableEq

/-- What `api.post(path, ...)` puts on the wire: the client unconditionally
issues the request with its configured header. -/
def apiPost (client : ApiClient) (path : String) : IssuedRequest :=
  { url := client.baseURL ++ path
    authHeader := client.authHeader }

/-- `getUserRole` from `App.js` (lines 16-21). -/
def getUserRole (role : Role) : String :=
  if role.teamAdmin then "Admin"
  else if role.groupManager then "Group Manager"
  else if role.billingAdmin then "Billing Admin"
  else "User"

/-- `getScoreColor` from `App.js` (lines 23-27); the score argument is the
0..1 fraction (`currentScore.score / 100` at the call site). -/
def getScoreColor (score : ℚ) : String :=
  if score ≥ 8/10 then "green"
  else if score ≥ 6/10 then "orange"
  else "red"

/-- The aggregate view-model built by `setDashlaneInfo` in the `App`
component: `\x7b team, healthscore, users \x7d`. -/
structure DashlaneInfo where
  team : Team
  healthscore : List HealthScorePoint
  users : MembersPayload
deriving Repr, DecidableEq

/-- The `App` component's state: `dashlaneInfo` (initially `null`) and
`hasError` (initially `false`). -/
structure AppState where
  dashlaneInfo : Option DashlaneInfo
  hasError : Bool
deriving Repr, DecidableEq

/-- `useState(null)` / `useState(false)` at mount of `App`. -/
def initialAppState : AppState :=
  { dashlaneInfo := none, hasError := false }

/-- The `fetchDashlaneInfo` effect of `App` (lines 34-61), as a state
transformer over the outcomes of the three awaited calls.  `setHasError
(false)` runs first; `Promise.all` succeeds only when all three requests
succeed, in which case `setDashlaneInfo` stores the team payload verbatim,
the concatenation `[...history, current]`, and the members payload
verbatim; otherwise the `catch` block sets `hasError` and leaves
`dashlaneInfo` untouched. -/
def fetchDashlaneInfo (s : AppState)
    (team : Except RequestError (AxiosResponse (ApiBody Team)))
    (healthscore : Except RequestError (AxiosResponse (ApiBody PasswordHealthPayload)))
    (users : Except RequestError (AxiosResponse (ApiBody MembersPayload))) :
    AppState :=
  let s0 : AppState := { s with hasError := false }
  match team, healthscore, users with
  | Except.ok t, Except.ok h, Except.ok u =>
      { s0 with
        dashlaneInfo := some
          { team := t.data.data
            healthscore := h.data.data.history ++ [h.data.data.current]
            users := u.data.data } }
  | _, _, _ => { s0 with hasError := true }

/-- The `Body` component's state, together with the bookkeeping needed to
speak about in-flight `/MembersDeviceInformation` requests: `userDevices`
and `activeUser` are the two `useState` hooks; `pending` records the
requests issued but not yet resolved (request id paired with the email it
was issued for), and `nextRequestId` numbers issued requests in order. -/
structure BodyState where
  userDevices : Option (List Device)
  activeUser : Option String
  pending : List (Nat × String)
  nextRequestId : Nat
deriving Repr, DecidableEq

/-- `useState(null)` / `useState(null)` at mount of `Body`. -/
def initialBodyState : BodyState :=
  { userDevices := none, activeUser := none, pending := [], nextRequestId := 0 }

/-- A selection change: `setActiveUser(email)` followed by the re-run of
the `fetchUserDevice` effect (lines 76-91).  With a `null` selection the
effect returns immediately (`if (!activeUser) return`), issuing no
request and touching no other state; with a non-null selection it issues
one `/MembersDeviceInformation` request for that email. -/
def onSelectionChange (s : BodyState) (email : Option String) : BodyState :=
  let s1 : BodyState := { s with activeUser := email }
  match email with
  | none => s1
  | some e =>
      { s1 with
        pending := s1.pending ++ [(s1.nextRequestId, e)]
        nextRequestId := s1.nextRequestId + 1 }

/-- Resolution of an in-flight device request (the continuation after
`await api.post('/MembersDeviceInformation', ...)`): on success the code
runs `setUserDevices(response.data.data.devices)` unconditionally — there
is no check that the request still matches `activeUser`; on failure the
`catch` only logs (`console.error`) and changes no state.  A resolution
for a request id that is not pending (never issued, or already resolved)
does nothing: a promise resolves at most once. -/
def onDeviceResponse (s : BodyState) (id : Nat)
    (result : Except RequestError (AxiosResponse (ApiBody DevicesPayload))) :
    BodyState :=
  if (s.pending.filter (fun p => p.1 = id)).isEmpty then s
  else
    let s1 : BodyState := { s with pending := s.pending.filter (fun p => p.1 ≠ id) }
    match result with
    | Except.ok response => { s1 with userDevices := some response.data.data.devices }
    | Except.error _ => s1

/-- The whole dashboard's state: the `App` component's state and the
`Body` component's state.  The `fetchUserDevice` effect lives inside
`Body` and has no access to `App`'s setters. -/
structure SystemState where
  app : AppState
  body : BodyState
deriving Repr, DecidableEq

/-- A device-request resolution at system level: only `Body`'s state can
change (the handler closes over `setUserDevices` only). -/
def systemDeviceResponse (s : SystemState) (id : Nat)
    (result : Except RequestError (AxiosResponse (ApiBody DevicesPayload))) :
    SystemState :=
  { s with body := onDeviceResponse s.body id result }

/-- An interaction event of the `Body` component: either the operator
changes the selection, or an in-flight device request resolves. -/
inductive BodyEvent where
  | select (email : Option String)
  | resolve (id : Nat)
      (result : Except RequestError (AxiosResponse (ApiBody DevicesPayload)))

/-- One step of the `Body` interaction machine. -/
def bodyStep (s : BodyState) : BodyEvent → BodyState
  | BodyEvent.select email => onSelectionChange s email
  | BodyEvent.resolve id result => onDeviceResponse s id result

/-- Run a sequence of `Body` events from a state. -/
def runBody (s : BodyState) : List BodyEvent → BodyState
  | [] => s
  | e :: rest => runBody (bodyStep s e) rest

/-- JS truthiness of the string read by the axis tick
(`payload.value || 'Now'` in `CustomizedAxisTick`, lines 235-250): an
absent (`undefined`) or empty `name` is falsy, so the label falls back to
the literal string `Now`; any other string is used as-is. -/
def tickLabel (value : Option String) : String :=
  match value with
  | none => "Now"
  | some s => if s = "" then "Now" else s

/-- The series handed to the chart: `LineChart data=\x7bhealthscore\x7d`
passes the series through unchanged (identity mapping). -/
def chartData (healthscore : List HealthScorePoint) : List HealthScorePoint :=
  healthscore

/-- The axis tick labels produced for a series: the tick of each chart
point renders `tickLabel` of its `name` field (`XAxis dataKey=name` with
`CustomizedAxisTick`). -/
def axisLabels (healthscore : List HealthScorePoint) : List String :=
  (chartData healthscore).map (fun p => tickLabel p.name)

/-- JS rendering of a numeric metric cell with the `|| "-"` fallback
(`UserProfile`, lines 169-171): `0` and `undefined` are both falsy and
render as the placeholder; any other number renders its digits. -/
def renderMetric : Option Nat → String
  | none => "-"
  | some n => if n = 0 then "-" else toString n

/-- The Health Score cell of a `UserProfile` row. -/
def scoreCell (u : Member) : String := renderMetric u.passwordHealth.score

/-- The Weak logins cell of a `UserProfile` row. -/
def weakCell (u : Member) : String := renderMetric u.passwordHealth.weakPasswords

/-- The Compromised logins cell of a `UserProfile` row. -/
def compromisedCell (u : Member) : String :=
  renderMetric u.passwordHealth.compromisedPasswords

/-! Sample values used by concrete witnesses and counterexamples. -/

/-- A concrete team payload. -/
def sampleTeam : Team := { seats := { active := 3, remaining := 2, pending := 1 } }

/-- A concrete health-score point with an explicit `name`. -/
def pointNamed (n : Option String) : HealthScorePoint :=
  { name := n, score := 70, passwordsTotal := 10, safe := 7, weak := 2
    reused := 1, compromised := 0 }

/-- A concrete members payload. -/
def sampleMembers : MembersPayload := { members := [] }

/-- A concrete device list, as would be returned for `a@x.com`. -/
def devA : List Device :=
  [{ name := "iPhone of A", platform := "ios", appVersion := none
     model := none, osVersion := none }]

/-- A concrete device list, as would be returned for `b@x.com`. -/
def devB : List Device :=
  [{ name := "Pixel of B", platform := "android", appVersion := none
     model := none, osVersion := none }]

/-- A successful `/MembersDeviceInformation` response carrying `ds`. -/
def okDevices (ds : List Device) :
    Except RequestError (AxiosResponse (ApiBody DevicesPayload)) :=
  Except.ok { data := { data := { devices := ds } } }

/-- Whether a call outcome is a failure. -/
def isErr {α : Type} : Except RequestError α → Bool
  | Except.error _ => true
  | Except.ok _ => false

/-- A concrete member whose three password-health metrics are all `0`. -/
def zeroMember : Member :=
  { email := "z@x.com", status := "accepted"
    authentication := { type := "email_token" }
    role := { teamAdmin := false, groupManager := false, billingAdmin := false }
    passwordHealth :=
      { score := some 0, weakPasswords := some 0, compromisedPasswords := some 0 } }

end Dashboard

namespace Dashboard

/-! Theorems settling the claims. -/

/-- C1: the claim requires that after a device fetch for `a@x.com` is
issued, then a fetch for `b@x.com` is issued before the first resolves,
and the first resolves last, the visible device list is the one for
`b@x.com`, never the one for `a@x.com`.  Evaluating the `fetchUserDevice`
effect of `App.js` on exactly this interleaving shows the opposite: the
handler stores any resolving response unconditionally, so the stale
response for `a@x.com` overwrites the fresher one and the final device
list is `a@x.com`'s. -/
theorem c1_stale_response_overwrites :
    (runBody initialBodyState
      [BodyEvent.select (some "a@x.com"),
       BodyEvent.select (some "b@x.com"),
       BodyEvent.resolve 1 (okDevices devB),
       BodyEvent.resolve 0 (okDevices devA)]).userDevices = some devA ∧
    devA ≠ devB := by
  constructor
  · rfl
  · decide

/-- C2: if any of the three initial calls fails, `fetchDashlaneInfo`
leaves the dashboard in the global error state with no field of the
aggregate view-model populated — never a partial merge. -/
theorem c2_all_or_nothing
    (team : Except RequestError (AxiosResponse (ApiBody Team)))
    (healthscore : Except RequestError (AxiosResponse (ApiBody PasswordHealthPayload)))
    (users : Except RequestError (AxiosResponse (ApiBody MembersPayload)))
    (h : isErr team = true ∨ isErr healthscore = true ∨ isErr users = true) :
    fetchDashlaneInfo initialAppState team healthscore users =
      { dashlaneInfo := none, hasError := true } := by
  cases team <;> cases healthscore <;> cases users <;>
    simp_all [fetchDashlaneInfo, isErr, initialAppState]

/-- Witness for C2: GetStatus fails while the other two succeed, and the
resulting state is exactly the error state. -/
theorem c2_witness :
    fetchDashlaneInfo initialAppState (Except.error { message := "boom" })
      (Except.ok { data := { data :=
        { history := [pointNamed (some "Jan")], current := pointNamed none } } })
      (Except.ok { data := { data := sampleMembers } }) =
      { dashlaneInfo := none, hasError := true } :=
  c2_all_or_nothing _ _ _ (Or.inl rfl)

/-- C3: on a fully successful initial load, the stored `healthscore`
series is `history ++ [current]`: length `len(history) + 1`, last element
exactly the current point, while `team` and `users` are stored verbatim
from their responses. -/
theorem c3_series_assembly (s : AppState)
    (team : AxiosResponse (ApiBody Team))
    (healthscore : AxiosResponse (ApiBody PasswordHealthPayload))
    (users : AxiosResponse (ApiBody MembersPayload)) :
    ∃ di : DashlaneInfo,
      (fetchDashlaneInfo s (Except.ok team) (Except.ok healthscore)
          (Except.ok users)).dashlaneInfo = some di ∧
      di.healthscore.length = healthscore.data.data.history.length + 1 ∧
      di.healthscore.getLast? = some healthscore.data.data.current ∧
      di.team = team.data.data ∧
      di.users = users.data.data := by
  refine ⟨_, rfl, ?_, ?_, rfl, rfl⟩
  · simp [fetchDashlaneInfo]
  · simp [fetchDashlaneInfo, List.getLast?_concat]

/-- C4 counterexample: select `a@x.com`, let its device response arrive,
then set the selection to `null`.  The claim says the device list is
cleared (becomes empty); in the code the effect returns before touching
any state, so the device list still holds `a@x.com`'s (non-empty)
devices.  (`nextRequestId = 1` and `pending = []` confirm no request was
issued by the `null` selection.) -/
theorem c4_counterexample :
    (runBody initialBodyState
      [BodyEvent.select (some "a@x.com"),
       BodyEvent.resolve 0 (okDevices devA),
       BodyEvent.select none]) =
      { userDevices := some devA, activeUser := none
        pending := [], nextRequestId := 1 } ∧
    devA ≠ [] := by
  constructor
  · rfl
  · decide

/-- C4 (amended): whenever the selection becomes empty, no
GetMemberDevices request is issued and the device list retains its prior
value (it is not cleared); only `activeUser` changes. -/
theorem c4_null_selection_no_request (s : BodyState) :
    onSelectionChange s none = { s with activeUser := none } := rfl

/-- C5 counterexample: with the bearer credential absent at process
start, the client does not fail before issuing a request — evaluating
`api.post('/Status')` shows a request is issued on the wire, carrying the
literal header `Bearer undefined` produced by interpolating the missing
environment value. -/
theorem c5_counterexample :
    apiPost (mkApi none) "/Status" =
      { url := "/dashlane-api/public/teams/Status"
        authHeader := "Bearer undefined" } := rfl

/-- C5 (amended): if the bearer credential is absent at process start,
every API-client call is still issued; each request carries the literal
header `Bearer undefined`.  No AuthConfigError kind exists in the code,
so a missing credential is not distinguished from transport failures
before a request is issued. -/
theorem c5_missing_token_still_issues (path : String) :
    (apiPost (mkApi none) path).authHeader = "Bearer undefined" ∧
    (apiPost (mkApi none) path).url = API_BASE_URL ++ path :=
  ⟨rfl, rfl⟩

/-- C6: a failing GetMemberDevices request is isolated: the `catch` only
logs, so the `App` dashboard state is unchanged and the device list (and
selection) remain at their prior values. -/
theorem c6_device_failure_isolated (s : SystemState) (id : Nat)
    (err : RequestError) :
    (systemDeviceResponse s id (Except.error err)).app = s.app ∧
    (systemDeviceResponse s id (Except.error err)).body.userDevices =
      s.body.userDevices ∧
    (systemDeviceResponse s id (Except.error err)).body.activeUser =
      s.body.activeUser := by
  refine ⟨rfl, ?_, ?_⟩ <;>
    · simp only [systemDeviceResponse, onDeviceResponse]
      split <;> rfl

/-- C7: `getScoreColor` returns green for scores ≥ 0.8, orange for scores
in [0.6, 0.8), red below 0.6; in particular 0.8 ↦ green, 0.6 ↦ orange,
0.59999 ↦ red, 1.0 ↦ green. -/
theorem c7_score_color_bands :
    (∀ s : ℚ, 8/10 ≤ s → getScoreColor s = "green") ∧
    (∀ s : ℚ, 6/10 ≤ s → s < 8/10 → getScoreColor s = "orange") ∧
    (∀ s : ℚ, s < 6/10 → getScoreColor s = "red") ∧
    getScoreColor (8/10) = "green" ∧
    getScoreColor (6/10) = "orange" ∧
    getScoreColor (59999/100000) = "red" ∧
    getScoreColor 1 = "green" := by
  refine ⟨fun s h => ?_, fun s h1 h2 => ?_, fun s h => ?_, ?_, ?_, ?_, ?_⟩
  · simp [getScoreColor, h]
  · simp [getScoreColor, h1, not_le.mpr h2, ge_iff_le]
  · have h2 : s < 8/10 := by linarith
    simp [getScoreColor, not_le.mpr h, not_le.mpr h2, ge_iff_le]
  · norm_num [getScoreColor]
  · norm_num [getScoreColor]
  · norm_num [getScoreColor]
  · norm_num [getScoreColor]

/-- Witness for C7: the band theorem applied at 0.9, 0.7 and 0.5. -/
theorem c7_witness :
    getScoreColor (9/10) = "green" ∧ getScoreColor (7/10) = "orange" ∧
    getScoreColor (1/2) = "red" :=
  ⟨c7_score_color_bands.1 (9/10) (by norm_num),
   c7_score_color_bands.2.1 (7/10) (by norm_num) (by norm_num),
   c7_score_color_bands.2.2.1 (1/2) (by norm_num)⟩

/-- C8: `getUserRole` is total and deterministic and follows the
precedence teamAdmin > groupManager > billingAdmin > plain user: the
first set flag wins and the default is `User`; every input yields exactly
one of the four labels. -/
theorem c8_role_precedence :
    (∀ r : Role, r.teamAdmin = true → getUserRole r = "Admin") ∧
    (∀ r : Role, r.teamAdmin = false → r.groupManager = true →
      getUserRole r = "Group Manager") ∧
    (∀ r : Role, r.teamAdmin = false → r.groupManager = false →
      r.billingAdmin = true → getUserRole r = "Billing Admin") ∧
    (∀ r : Role, r.teamAdmin = false → r.groupManager = false →
      r.billingAdmin = false → getUserRole r = "User") ∧
    (∀ r : Role, getUserRole r = "Admin" ∨ getUserRole r = "Group Manager" ∨
      getUserRole r = "Billing Admin" ∨ getUserRole r = "User") := by
  refine ⟨?_, ?_, ?_, ?_, ?_⟩ <;>
    · rintro ⟨a, b, c⟩
      cases a <;> cases b <;> cases c <;> simp [getUserRole]

/-- Witness for C8: precedence at concrete flag combinations — all three
flags set yields `Admin`, and each later flag wins only when the earlier
ones are clear. -/
theorem c8_witness :
    getUserRole { teamAdmin := true, groupManager := true, billingAdmin := true } =
      "Admin" ∧
    getUserRole { teamAdmin := false, groupManager := true, billingAdmin := true } =
      "Group Manager" ∧
    getUserRole { teamAdmin := false, groupManager := false, billingAdmin := true } =
      "Billing Admin" ∧
    getUserRole { teamAdmin := false, groupManager := false, billingAdmin := false } =
      "User" :=
  ⟨c8_role_precedence.1 _ rfl, c8_role_precedence.2.1 _ rfl rfl,
   c8_role_precedence.2.2.1 _ rfl rfl rfl,
   c8_role_precedence.2.2.2.1 _ rfl rfl rfl⟩

/-- C9 counterexample: the claim says the last point's tick label renders
as `Now` regardless of its `name` field.  Evaluating the tick renderer on
a two-point series whose last point is named `Feb` shows the last label
is `Feb`, not `Now` — and a non-last point with no name is labelled
`Now`. -/
theorem c9_counterexample :
    axisLabels [pointNamed (some "Jan"), pointNamed (some "Feb")] =
      ["Jan", "Feb"] ∧
    "Feb" ≠ "Now" ∧
    axisLabels [pointNamed none, pointNamed (some "Feb")] = ["Now", "Feb"] := by
  refine ⟨rfl, by decide, rfl⟩

/-- C9 (amended): the series-to-chart mapping is the identity, and a
point's tick label is its `name` field when that is present and
non-empty, and the fallback `Now` when the name is absent or empty,
independent of the point's position in the series.  (The trailing current
point renders `Now` exactly when it carries no name.) -/
theorem c9_tick_identity_and_fallback (hs : List HealthScorePoint)
    (s : String) (h : s ≠ "") :
    chartData hs = hs ∧ tickLabel (some s) = s ∧ tickLabel none = "Now" ∧
    tickLabel (some "") = "Now" :=
  ⟨rfl, by simp [tickLabel, h], rfl, rfl⟩

/-- Witness for C9 (amended): the identity/fallback theorem at a concrete
series and a concrete non-empty name. -/
theorem c9_witness :
    chartData [pointNamed none] = [pointNamed none] ∧
    tickLabel (some "Jan") = "Jan" ∧ tickLabel none = "Now" ∧
    tickLabel (some "") = "Now" :=
  c9_tick_identity_and_fallback [pointNamed none] "Jan" (by decide)

/-- C10: a member metric equal to 0 renders the placeholder `-` in its
table cell, indistinguishable from an absent value, and the zero metric
is never displayed as the digit 0. -/
theorem c10_zero_renders_placeholder (u : Member) :
    (u.passwordHealth.score = some 0 → scoreCell u = "-") ∧
    (u.passwordHealth.weakPasswords = some 0 → weakCell u = "-") ∧
    (u.passwordHealth.compromisedPasswords = some 0 → compromisedCell u = "-") ∧
    renderMetric none = "-" ∧
    renderMetric (some 0) ≠ "0" := by
  refine ⟨fun h => ?_, fun h => ?_, fun h => ?_, rfl, by decide⟩ <;>
    simp [scoreCell, weakCell, compromisedCell, renderMetric, h]

/-- Witness for C10: the placeholder theorem applied to a member whose
three metrics are all zero. -/
theorem c10_witness :
    scoreCell zeroMember = "-" ∧ weakCell zeroMember = "-" ∧
    compromisedCell zeroMember = "-" :=
  ⟨(c10_zero_renders_placeholder zeroMember).1 rfl,
   (c10_zero_renders_placeholder zeroMember).2.1 rfl,
   (c10_zero_renders_placeholder zeroMember).2.2.1 rfl⟩

end Dashboard
